import Mathlib

/-!
Verification of the crypto-radar polling/alerting script (`main.py`).

The script is shallowly embedded: wall-clock instants are seconds since the
Unix epoch (`Nat`), Python floats are rationals (`ℚ`), JSON values are an
inductive `JValue`, exceptions are `Except`, and each outbound HTTP call is an
input describing the remote end's behaviour.  Every definition follows the
corresponding line of `main.py`; network endpoints are opaque inputs.
-/

namespace CryptoRadar

/-! ## Configuration (class Config) -/

/-- `Config.INTERVAL_MINUTES = 10`: scan interval in minutes. -/
def INTERVAL_MINUTES : Nat := 10

/-! ## Calendar: model of `datetime`/`strftime`

`datetime.now(timezone.utc)` is an epoch-second count.  `civilFromDays`
converts a day number since 1970-01-01 to a proleptic Gregorian (year, month,
day), the arithmetic `strftime('%Y-%m-%dT%H:%M:%SZ')` performs. -/

/-- Gregorian date (year, month, day) of day number `z` since 1970-01-01. -/
def civilFromDays (z : Nat) : Nat × Nat × Nat :=
  let zd := z + 719468
  let era := zd / 146097
  let doe := zd % 146097
  let yoe := (doe - doe / 1460 + doe / 36524 - doe / 146096) / 365
  let y := yoe + era * 400
  let doy := doe - (365 * yoe + yoe / 4 - yoe / 100)
  let mp := (5 * doy + 2) / 153
  let d := doy - (153 * mp + 2) / 5 + 1
  let m := if mp < 10 then mp + 3 else mp - 9
  (if m ≤ 2 then y + 1 else y, m, d)

/-- Decimal digit characters of `n`, most significant first. -/
def natDigits (n : Nat) : List Char :=
  if _h : n < 10 then [Nat.digitChar n]
  else natDigits (n / 10) ++ [Nat.digitChar (n % 10)]
decreasing_by exact Nat.div_lt_self (by omega) (by omega)

/-- Decimal rendering of a natural number. -/
def natStr (n : Nat) : String :=
  ⟨natDigits n⟩

/-- `%m`/`%d`/`%H`/`%M`/`%S`: zero-padded to width 2. -/
def pad2 (n : Nat) : String :=
  if n < 10 then "0" ++ natStr n else natStr n

/-- `%Y`: zero-padded to width 4 (years below 10000). -/
def pad4 (n : Nat) : String :=
  if n < 10 then "000" ++ natStr n
  else if n < 100 then "00" ++ natStr n
  else if n < 1000 then "0" ++ natStr n
  else natStr n

/-- `time_window.strftime('%Y-%m-%dT%H:%M:%SZ')` on epoch second `t`. -/
def timeStr (t : Nat) : String :=
  let sod := t % 86400
  let ymd := civilFromDays (t / 86400)
  pad4 ymd.1 ++ "-" ++ pad2 ymd.2.1 ++ "-" ++ pad2 ymd.2.2 ++ "T" ++
    pad2 (sod / 3600) ++ ":" ++ pad2 (sod % 3600 / 60) ++ ":" ++ pad2 (sod % 60) ++ "Z"

/-! ## Query builder (`_get_dynamic_query`)

The GraphQL document is the f-string of `main.py` with the two `{time_str}`
holes split out; `\x7b`/`\x7d` denote the literal braces produced by the
f-string's `\x7b\x7b`/`\x7d\x7d` escapes. -/

def queryPart0 : String :=
  "\n        \x7b\n          bitcoin \x7b\n            inflow: transactions(\n              options: \x7bdesc: \"value\", limit: 1\x7d\n              date: \x7bafter: \""

def queryPart1 : String :=
  "\"\x7d \n              outputAddress: \x7bannotation: \"Exchange\"\x7d\n            ) \x7b\n              average: value(calculate: average)\n              count\n            \x7d\n            old_coins: inputs(age: \x7bgt: 1095\x7d, date: \x7bafter: \""

def queryPart2 : String :=
  "\"\x7d) \x7b\n              volume: value(calculate: sum)\n            \x7d\n          \x7d\n        \x7d\n        "

/-- `_get_dynamic_query` at wall-clock instant `now`: the window start is
`now - INTERVAL_MINUTES` and its ISO timestamp is spliced into the template
(twice). -/
def getDynamicQuery (now : Nat) : String :=
  let time_window := now - INTERVAL_MINUTES * 60
  let ts := timeStr time_window
  queryPart0 ++ ts ++ queryPart1 ++ ts ++ queryPart2

/-! ## Token cache (`_refresh_token`) -/

/-- The mutable fields of `CryptoRadar`: `self.token` and `self.token_expiry`
(epoch seconds). -/
structure RadarState where
  token : Option String
  tokenExpiry : Nat
  deriving Repr, DecidableEq

/-- Python truthiness of `self.token`: `None` and the empty string are falsy. -/
def tokenTruthy : Option String → Bool
  | none => false
  | some s => !s.isEmpty

/-- Behaviour of the OAuth endpoint on one exchange: either the request fails
(network error, `raise_for_status`, or undecodable JSON) or it yields a JSON
body whose optional `access_token` field is `accessToken`. -/
inductive AuthOutcome where
  | failure
  | success (accessToken : Option String)
  deriving Repr, DecidableEq

/-- `_refresh_token`: returns the new state and the number of token-exchange
requests issued (0 or 1).  A truthy unexpired token short-circuits; otherwise
one POST is made; on success both fields are stored (`access_token` value,
expiry `now + 23h`), on failure the token is cleared and the expiry is left
as it was. -/
def refreshToken (st : RadarState) (now : Nat) (resp : AuthOutcome) :
    RadarState × Nat :=
  if tokenTruthy st.token = true ∧ now < st.tokenExpiry then (st, 0)
  else
    match resp with
    | .failure => ({ st with token := none }, 1)
    | .success tok => ({ token := tok, tokenExpiry := now + 23 * 3600 }, 1)

/-! ## JSON values and the Python operations `scan` performs on them -/

/-- A decoded JSON value (`res.json()`), numbers read as exact rationals. -/
inductive JValue where
  | null
  | bool (b : Bool)
  | num (q : ℚ)
  | str (s : String)
  | arr (xs : List JValue)
  | obj (fields : List (String × JValue))

/-- `v[k]` on a JSON value: key lookup on a dict, `KeyError`/`TypeError`
otherwise (the raised exception carries no data we need). -/
def jget (v : JValue) (k : String) : Except Unit JValue :=
  match v with
  | .obj fields =>
    match fields.lookup k with
    | some w => .ok w
    | none => .error ()
  | _ => .error ()

/-- `v[i]` integer indexing on a JSON array, `IndexError`/`TypeError`
otherwise. -/
def jidx (v : JValue) (i : Nat) : Except Unit JValue :=
  match v with
  | .arr xs =>
    match xs.get? i with
    | some w => .ok w
    | none => .error ()
  | _ => .error ()

/-- Python truthiness of a JSON value (`if data['inflow']`). -/
def jTruthy : JValue → Bool
  | .null => false
  | .bool b => b
  | .num q => decide (q ≠ 0)
  | .str s => !s.isEmpty
  | .arr xs => !xs.isEmpty
  | .obj fields => !fields.isEmpty

/-- `'errors' in json_data`: key test on a dict, membership on a list,
substring test on a string, `TypeError` otherwise. -/
def jHasMember (v : JValue) (k : String) : Except Unit Bool :=
  match v with
  | .obj fields => .ok (fields.any (fun p => p.1 == k))
  | .arr xs => .ok (xs.any (fun w => match w with | .str s => s == k | _ => false))
  | .str s => .ok (decide ((s.splitOn k).length ≠ 1))
  | _ => .error ()

/-- Reading a JSON value as a number, as the `:.2f` log formatting and the
numeric comparisons of the trigger do; anything non-numeric raises. -/
def jNum : JValue → Except Unit ℚ
  | .num q => .ok q
  | .bool b => .ok (if b then 1 else 0)
  | _ => .error ()

/-! ## Scan cycle (`scan`) -/

/-- Behaviour of the analytics endpoint on the one POST `scan` makes: the
request itself may raise, or it returns a status code and a body whose JSON
decoding may raise. -/
inductive PostResult where
  | raise
  | response (status : Nat) (body : Except Unit JValue)

/-- Observable record of one `scan` cycle: number of token-exchange requests,
number of analytics POSTs, the pair logged by `logger.info("Scan Result ...")`,
the pair handed to `_send_alert`, and whether the cycle ended in the
`except` handler at the cycle boundary. -/
structure ScanLog where
  authCalls : Nat
  postCalls : Nat
  scanResult : Option (ℚ × ℚ)
  alertSent : Option (ℚ × ℚ)
  caught : Bool
  deriving Repr, DecidableEq

/-- Body of the `try:` block of `scan` (lines 97-124): POST, status check,
GraphQL error check, extraction of the two aggregates with empty-array
defaults, logging, threshold trigger.  Returns the logged pair and the pair
handed to `_send_alert`; `.error` is an uncaught exception inside the block. -/
def scanTry (post : PostResult) : Except Unit (Option (ℚ × ℚ) × Option (ℚ × ℚ)) :=
  match post with
  | .raise => .error ()
  | .response status body =>
    if status ≠ 200 then .ok (none, none)
    else do
      let json_data ← body
      let hasErrors ← jHasMember json_data "errors"
      if hasErrors then return (none, none)
      let data ← jget json_data "data" >>= (jget · "bitcoin")
      let inflowArr ← jget data "inflow"
      let avgJ ← if jTruthy inflowArr then jidx inflowArr 0 >>= (jget · "average")
                 else pure (JValue.num 0)
      let oldArr ← jget data "old_coins"
      let oldJ ← if jTruthy oldArr then jidx oldArr 0 >>= (jget · "volume")
                 else pure (JValue.num 0)
      let avg_inflow ← jNum avgJ
      let old_vol ← jNum oldJ
      if 2 < avg_inflow ∨ 100 < old_vol then
        return (some (avg_inflow, old_vol), some (avg_inflow, old_vol))
      else
        return (some (avg_inflow, old_vol), none)

/-- `scan`: refresh the token, skip the cycle if it is still falsy, otherwise
run the `try:` block; an exception escaping the block is caught and logged at
the cycle boundary, so `scan` always returns normally. -/
def scan (st : RadarState) (now : Nat) (authResp : AuthOutcome)
    (post : PostResult) : RadarState × ScanLog :=
  let refreshed := refreshToken st now authResp
  let st1 := refreshed.1
  if tokenTruthy st1.token = false then
    (st1, { authCalls := refreshed.2, postCalls := 0, scanResult := none,
            alertSent := none, caught := false })
  else
    match scanTry post with
    | .error _ =>
      (st1, { authCalls := refreshed.2, postCalls := 1, scanResult := none,
              alertSent := none, caught := true })
    | .ok (r, al) =>
      (st1, { authCalls := refreshed.2, postCalls := 1, scanResult := r,
              alertSent := al, caught := false })

/-! ## Notifier (`_send_alert`)

`main.py` is stored with mojibake: each emoji of the Telegram text appears in
the source as the Latin-1 reading of its UTF-8 bytes.  The string literals
below reproduce the file's characters exactly (escaped). -/

/-- Nearest integer, ties to even: the rounding of Python's fixed-point
`format`. -/
def roundHalfEven (q : ℚ) : ℤ :=
  let f := ⌊q⌋
  let r := q - (f : ℚ)
  if r < 1 / 2 then f
  else if 1 / 2 < r then f + 1
  else if f % 2 = 0 then f else f + 1

/-- Python fixed-point formatting with 2 decimals (`:.2f`) on a rational. -/
def pyFixed2 (q : ℚ) : String :=
  let n := (roundHalfEven (|q| * 100)).toNat
  (if q < 0 then "-" else "") ++ natStr (n / 100) ++ "." ++ pad2 (n % 100)

/-- Python fixed-point formatting with 0 decimals (`:.0f`) on a rational. -/
def pyFixed0 (q : ℚ) : String :=
  (if q < 0 then "-" else "") ++ natStr (roundHalfEven |q|).toNat

/-- First line of the alert text (the mojibake radar emoji, then the
header). -/
def alertHeader : String := "ðŸ“¡ **RADAR DETECTED MOVEMENT**\n"

/-- Horizontal rule line of the alert text (22 mojibake box-drawing dashes). -/
def alertRule : String := "â”€â”€â”€â”€â”€â”€â”€â”€â”€â”€â”€â”€â”€â”€â”€â”€â”€â”€â”€â”€â”€â”€\n"

/-- Exchange-inflow line of the alert text. -/
def inflowLine (inflow : ℚ) : String :=
  "ðŸ“Š **Exchange Inflow (Avg):** " ++ pyFixed2 inflow ++ " BTC\n"

/-- Whale line, appended when `old_vol > 500`. -/
def whaleLine (old_vol : ℚ) : String :=
  "ðŸ’€ **WHALE ALERT:** " ++ pyFixed0 old_vol ++ " BTC (3y+ old) moved!\n"

/-- Old-coins line, appended when `0 < old_vol ≤ 500`. -/
def oldCoinsLine (old_vol : ℚ) : String :=
  "â³ **Old Coins:** " ++ pyFixed0 old_vol ++ " BTC moved.\n"

/-- High-dump-risk trailer, appended when `inflow > 5.0`. -/
def dumpRiskLine : String :=
  "ðŸš¨ **HIGH DUMP RISK** ðŸš¨"

/-- The Telegram message `_send_alert` builds from `(inflow, old_vol)`,
following its `msg += ...` statements and conditionals line by line. -/
def alertMsg (inflow old_vol : ℚ) : String :=
  alertHeader ++ alertRule ++ inflowLine inflow ++
    (if 500 < old_vol then whaleLine old_vol
     else if 0 < old_vol then oldCoinsLine old_vol
     else "") ++
    alertRule ++
    (if 5 < inflow then dumpRiskLine else "")

/-! ## Web surface

The Flask app registers exactly one route, `GET /`, whose handler `health`
returns a static status string. -/

/-- The route paths registered on the Flask app (`@app.route(...)`). -/
def appRoutes : List String := ["/"]

/-- Body returned by the `health` handler at `GET /`. -/
def healthBody : String :=
  "Radar 10000/10 is Active and Scanning... ðŸ“¡"

/-! ## Auxiliary definitions used only to state and check the claims -/

/-- Numeric value of a decimal digit character. -/
def digitVal (c : Char) : Nat := c.toNat - 48

/-- Reads a string of the exact shape `YYYY-MM-DDTHH:MM:SSZ` back into its six
numeric components; `none` on any other shape.  Inverse used to check the
timestamp format of the query builder. -/
def parseTimestamp (s : String) : Option (Nat × Nat × Nat × Nat × Nat × Nat) :=
  match s.data with
  | [y1, y2, y3, y4, '-', m1, m2, '-', d1, d2, 'T',
     h1, h2, ':', n1, n2, ':', s1, s2, 'Z'] =>
    if (y1.isDigit && y2.isDigit && y3.isDigit && y4.isDigit &&
        m1.isDigit && m2.isDigit && d1.isDigit && d2.isDigit &&
        h1.isDigit && h2.isDigit && n1.isDigit && n2.isDigit &&
        s1.isDigit && s2.isDigit) = true then
      some (digitVal y1 * 1000 + digitVal y2 * 100 + digitVal y3 * 10 + digitVal y4,
            digitVal m1 * 10 + digitVal m2,
            digitVal d1 * 10 + digitVal d2,
            digitVal h1 * 10 + digitVal h2,
            digitVal n1 * 10 + digitVal n2,
            digitVal s1 * 10 + digitVal s2)
    else none
  | _ => none

/-- Characters of the fragments of the alert text present in every message:
header, rules, and the constant parts of the inflow line. -/
def alertBaseChars : List Char :=
  (alertHeader ++ alertRule ++ "ðŸ“Š **Exchange Inflow (Avg):** " ++ " BTC\n").data

/-- Characters of the constant parts of the whale line. -/
def whaleConstChars : List Char :=
  ("ðŸ’€ **WHALE ALERT:** " ++ " BTC (3y+ old) moved!\n").data

/-- Characters of the constant parts of the old-coins line. -/
def oldCoinsConstChars : List Char :=
  ("â³ **Old Coins:** " ++ " BTC moved.\n").data

/-- Analytics response fixture: HTTP 200 with body
`{data: {bitcoin: {inflow: ..., old_coins: ...}}}`, the shape documented for
the endpoint. -/
def mkAnalyticsResponse (inflow old_coins : JValue) : PostResult :=
  .response 200 (.ok (.obj [("data",
    .obj [("bitcoin", .obj [("inflow", inflow), ("old_coins", old_coins)])])]))

/-! ## Claims about the token cache -/

/-- C2 (corrected). The claim reads the guard as "cached value non-None";
`_refresh_token` actually tests Python truthiness (`if self.token and ...`),
so a cached empty string refreshes as well.  This theorem proves the guard as
implemented: a truthy token with `now` strictly before the expiry returns
with no request and no state change; in every other case exactly one
token-exchange request is issued. -/
theorem refresh_guard_truthy (st : RadarState) (now : Nat) (resp : AuthOutcome) :
    (tokenTruthy st.token = true ∧ now < st.tokenExpiry →
      refreshToken st now resp = (st, 0)) ∧
    (¬(tokenTruthy st.token = true ∧ now < st.tokenExpiry) →
      (refreshToken st now resp).2 = 1) := by
  constructor <;> intro h
  · simp [refreshToken, h]
  · cases resp <;> simp [refreshToken, h]

/-- C2 witness: a fresh token short-circuits; an expired one does not. -/
theorem refresh_guard_truthy_witness :
    refreshToken ⟨some "tok", 10⟩ 5 .failure = (⟨some "tok", 10⟩, 0) ∧
    (refreshToken ⟨some "tok", 10⟩ 20 .failure).2 = 1 :=
  ⟨(refresh_guard_truthy ⟨some "tok", 10⟩ 5 .failure).1 (by decide),
   (refresh_guard_truthy ⟨some "tok", 10⟩ 20 .failure).2 (by decide)⟩

/-- C2 counterexample. A cached empty-string token is non-None and unexpired
(`5 < 10`), yet `_refresh_token` still issues a token-exchange request,
contradicting the claim that a non-None cached value before expiry implies no
network call. -/
theorem refresh_guard_nonNone_cex :
    (some "" ≠ (none : Option String)) ∧ 5 < 10 ∧
    (refreshToken ⟨some "", 10⟩ 5 (.success (some "tok"))).2 = 1 := by
  refine ⟨by decide, by decide, ?_⟩
  rfl

/-- C5. A refresh never partially updates the `(token, token_expiry)` pair:
either it leaves the state untouched (valid-token fast path), or the exchange
failed and the token is cleared with the expiry unchanged, or the exchange
succeeded and both fields are replaced together (`access_token` value and
`now + 23` hours). -/
theorem refresh_never_partial (st : RadarState) (now : Nat) (resp : AuthOutcome) :
    (refreshToken st now resp).1 = st ∨
    (resp = .failure ∧ (refreshToken st now resp).1.token = none ∧
      (refreshToken st now resp).1.tokenExpiry = st.tokenExpiry) ∨
    (∃ tok, resp = .success tok ∧
      (refreshToken st now resp).1 = ⟨tok, now + 23 * 3600⟩) := by
  unfold refreshToken
  split
  · exact Or.inl rfl
  · cases resp
    · exact Or.inr (Or.inl ⟨rfl, rfl, rfl⟩)
    · exact Or.inr (Or.inr ⟨_, rfl, rfl⟩)

/-- C10. When the exchange returns 2xx JSON without an `access_token` field,
`data.get` yields `None`: the refresh stores `None` as the token while still
advancing the expiry to `now + 23` hours; since the validity guard needs a
truthy value, every later refresh call issues a network request again. -/
theorem refresh_missing_field (st : RadarState) (now : Nat)
    (h : ¬(tokenTruthy st.token = true ∧ now < st.tokenExpiry)) :
    (refreshToken st now (.success none)).1.token = none ∧
    (refreshToken st now (.success none)).1.tokenExpiry = now + 23 * 3600 ∧
    ∀ now2 resp2,
      (refreshToken (refreshToken st now (.success none)).1 now2 resp2).2 = 1 := by
  have hst : refreshToken st now (.success none) =
      ({ token := none, tokenExpiry := now + 23 * 3600 }, 1) := by
    cases hg : decide (tokenTruthy st.token = true ∧ now < st.tokenExpiry) with
    | false => simp [refreshToken, h]
    | true => exact absurd (of_decide_eq_true hg) h
  refine ⟨by rw [hst], by rw [hst], fun now2 resp2 => ?_⟩
  rw [hst]
  cases resp2 <;> simp [refreshToken, tokenTruthy]

/-- C10 witness: an expired empty cache, a 200 body missing `access_token`,
then a later call still issues a request. -/
theorem refresh_missing_field_witness :
    (refreshToken ⟨none, 5⟩ 5 (.success none)).1.token = none ∧
    (refreshToken (refreshToken ⟨none, 5⟩ 5 (.success none)).1 99 .failure).2 = 1 :=
  ⟨(refresh_missing_field ⟨none, 5⟩ 5 (by decide)).1,
   (refresh_missing_field ⟨none, 5⟩ 5 (by decide)).2.2 99 .failure⟩

/-! ## Claims about the scan cycle -/

/-- C6. If the token is still falsy after the authentication step (exchange
failed, or the 2xx body had no `access_token`), `scan` returns normally
before the `try:` block: no analytics POST, no alert, no exception. -/
theorem scan_skips_without_token (st : RadarState) (now : Nat)
    (a : AuthOutcome) (post : PostResult)
    (h : tokenTruthy (refreshToken st now a).1.token = false) :
    (scan st now a post).2.postCalls = 0 ∧
    (scan st now a post).2.alertSent = none ∧
    (scan st now a post).2.caught = false ∧
    (scan st now a post).1 = (refreshToken st now a).1 := by
  simp [scan, h]

/-- C6 witness: failed exchange on an empty cache, analytics endpoint would
even raise — the cycle still skips cleanly. -/
theorem scan_skips_without_token_witness :
    (scan ⟨none, 0⟩ 0 .failure .raise).2.postCalls = 0 ∧
    (scan ⟨none, 0⟩ 0 .failure .raise).2.alertSent = none :=
  ⟨(scan_skips_without_token ⟨none, 0⟩ 0 .failure .raise (by decide)).1,
   (scan_skips_without_token ⟨none, 0⟩ 0 .failure .raise (by decide)).2.1⟩

/-- C4. Error containment of one scan cycle: at most the single analytics
POST is made (the next scheduled tick is the only retry); whatever ends in
the boundary handler produced no parsed result and no alert; a raised request
is caught there; a non-200 status or a body with a GraphQL `errors` key is a
logged abort — no parse, no alert, and not an exception.  `scan` itself
always returns a `RadarState × ScanLog`, never an exception. -/
theorem scan_error_containment (st : RadarState) (now : Nat) (a : AuthOutcome)
    (post : PostResult) :
    (scan st now a post).2.postCalls ≤ 1 ∧
    ((scan st now a post).2.caught = true →
      (scan st now a post).2.scanResult = none ∧
      (scan st now a post).2.alertSent = none) ∧
    (post = .raise → tokenTruthy (refreshToken st now a).1.token = true →
      (scan st now a post).2.caught = true) ∧
    (∀ status body, post = .response status body → status ≠ 200 →
      (scan st now a post).2.scanResult = none ∧
      (scan st now a post).2.alertSent = none ∧
      (scan st now a post).2.caught = false) ∧
    (∀ flds, post = .response 200 (.ok (.obj flds)) →
      flds.any (fun p => p.1 == "errors") = true →
      (scan st now a post).2.scanResult = none ∧
      (scan st now a post).2.alertSent = none ∧
      (scan st now a post).2.caught = false) := by
  cases htok : tokenTruthy (refreshToken st now a).1.token with
  | false =>
    refine ⟨?_, ?_, ?_, ?_, ?_⟩ <;> simp [scan, htok]
  | true =>
    refine ⟨?_, ?_, ?_, ?_, ?_⟩
    · cases hscan : scanTry post <;> simp [scan, htok, hscan]
    · cases hscan : scanTry post with
      | error e => simp [scan, htok, hscan]
      | ok r => simp [scan, htok, hscan]
    · rintro rfl -
      simp [scan, htok, scanTry]
    · rintro status body rfl hne
      have hscan : scanTry (.response status body) = .ok (none, none) := by
        simp [scanTry, hne]
      simp [scan, htok, hscan]
    · rintro flds rfl hany
      have hscan : scanTry (.response 200 (.ok (.obj flds))) = .ok (none, none) := by
        simp [scanTry, jHasMember, bind, Except.bind, hany, pure, Except.pure]
      simp [scan, htok, hscan]

/-- C4 witness: HTTP 500, a GraphQL error body, and a raised request are all
contained. -/
theorem scan_error_containment_witness :
    (scan ⟨some "tok", 1⟩ 0 .failure (.response 500 (.ok .null))).2.scanResult = none ∧
    (scan ⟨some "tok", 1⟩ 0 .failure
      (.response 200 (.ok (.obj [("errors", .arr [])])))).2.alertSent = none ∧
    (scan ⟨some "tok", 1⟩ 0 .failure .raise).2.caught = true :=
  ⟨((scan_error_containment ⟨some "tok", 1⟩ 0 .failure
      (.response 500 (.ok .null))).2.2.2.1 500 (.ok .null) rfl (by decide)).1,
   ((scan_error_containment ⟨some "tok", 1⟩ 0 .failure
      (.response 200 (.ok (.obj [("errors", .arr [])])))).2.2.2.2
      [("errors", .arr [])] rfl (by decide)).2.1,
   (scan_error_containment ⟨some "tok", 1⟩ 0 .failure .raise).2.2.1 rfl (by decide)⟩

/-- Symbolic evaluation of the `try:` block on a well-formed 200 response
with one inflow entry and one old-coins entry. -/
theorem scanTry_mk (avg old : ℚ) :
    scanTry (mkAnalyticsResponse (.arr [.obj [("average", .num avg)]])
      (.arr [.obj [("volume", .num old)]])) =
    .ok (some (avg, old),
      if 2 < avg ∨ 100 < old then some (avg, old) else none) := by
  simp only [scanTry, mkAnalyticsResponse, jHasMember, jget, jidx, jTruthy, jNum,
    bind, Except.bind, pure, Except.pure]
  by_cases h : 2 < avg ∨ 100 < old <;> simp [List.lookup, h]

/-- Full cycle on such a response, from a state holding a valid token. -/
theorem scan_mk (avg old : ℚ) :
    scan ⟨some "tok", 1⟩ 0 .failure
      (mkAnalyticsResponse (.arr [.obj [("average", .num avg)]])
        (.arr [.obj [("volume", .num old)]])) =
    (⟨some "tok", 1⟩,
     { authCalls := 0, postCalls := 1, scanResult := some (avg, old),
       alertSent := if 2 < avg ∨ 100 < old then some (avg, old) else none,
       caught := false }) := by
  have h1 : refreshToken ⟨some "tok", 1⟩ 0 .failure = (⟨some "tok", 1⟩, 0) := by
    decide
  have h2 : tokenTruthy (some "tok") = true := by decide
  simp only [scan, h1, h2, scanTry_mk]
  simp

/-- C1. Threshold law of a cycle that reaches the evaluation step: the alert
is handed to `_send_alert` iff `averageInflow > 2.0` or `oldCoinVolume >
100`; at the boundary values `2.0` and `100` no alert is dispatched. -/
theorem scan_threshold_law :
    (∀ avg old : ℚ,
      (scan ⟨some "tok", 1⟩ 0 .failure
        (mkAnalyticsResponse (.arr [.obj [("average", .num avg)]])
          (.arr [.obj [("volume", .num old)]]))).2.alertSent ≠ none ↔
      (2 < avg ∨ 100 < old)) ∧
    (scan ⟨some "tok", 1⟩ 0 .failure
      (mkAnalyticsResponse (.arr [.obj [("average", .num 2)]])
        (.arr [.obj [("volume", .num 100)]]))).2.alertSent = none := by
  constructor
  · intro avg old
    rw [scan_mk]
    by_cases h : 2 < avg ∨ 100 < old <;> simp [h]
  · rw [scan_mk]
    norm_num

/-- C3. Empty result arrays parse to the 0.0 defaults without raising: with
an empty `inflow` (resp. `old_coins`, resp. both) the `try:` block returns
`.ok` — never an exception — and the corresponding aggregate is `0`. -/
theorem scan_parse_empty_defaults : ∀ q : ℚ,
    scanTry (mkAnalyticsResponse (.arr []) (.arr [.obj [("volume", .num q)]])) =
      .ok (some (0, q), if 100 < q then some (0, q) else none) ∧
    scanTry (mkAnalyticsResponse (.arr [.obj [("average", .num q)]]) (.arr [])) =
      .ok (some (q, 0), if 2 < q then some (q, 0) else none) ∧
    scanTry (mkAnalyticsResponse (.arr []) (.arr [])) = .ok (some (0, 0), none) := by
  intro q
  refine ⟨?_, ?_, ?_⟩
  · simp only [scanTry, mkAnalyticsResponse, jHasMember, jget, jidx, jTruthy, jNum,
      bind, Except.bind, pure, Except.pure]
    by_cases h : (100 : ℚ) < q <;> simp [List.lookup, h]
  · simp only [scanTry, mkAnalyticsResponse, jHasMember, jget, jidx, jTruthy, jNum,
      bind, Except.bind, pure, Except.pure]
    by_cases h : (2 : ℚ) < q <;> simp [List.lookup, h]
  · simp only [scanTry, mkAnalyticsResponse, jHasMember, jget, jidx, jTruthy, jNum,
      bind, Except.bind, pure, Except.pure]
    simp [List.lookup]

/-! ## Character set of the formatter outputs -/

theorem digitChar_isDigit : ∀ m < 10, (Nat.digitChar m).isDigit = true := by
  decide

theorem natDigits_digit (n : Nat) : ∀ c ∈ natDigits n, c.isDigit = true := by
  induction n using Nat.strong_induction_on with
  | _ n ih =>
    rw [natDigits]
    split
    · intro c hc
      rw [List.mem_singleton] at hc
      subst hc
      exact digitChar_isDigit n (by omega)
    · intro c hc
      rw [List.mem_append, List.mem_singleton] at hc
      rcases hc with hc | hc
      · exact ih (n / 10) (Nat.div_lt_self (by omega) (by omega)) c hc
      · subst hc
        exact digitChar_isDigit (n % 10) (Nat.mod_lt n (by omega))

theorem natStr_digit (n : Nat) : ∀ c ∈ (natStr n).data, c.isDigit = true :=
  natDigits_digit n

theorem pad2_digit (n : Nat) : ∀ c ∈ (pad2 n).data, c.isDigit = true := by
  unfold pad2
  split
  · intro c hc
    rw [String.data_append, List.mem_append] at hc
    rcases hc with hc | hc
    · rw [show ("0" : String).data = ['0'] from rfl, List.mem_singleton] at hc
      subst hc; decide
    · exact natStr_digit n c hc
  · exact natStr_digit n

theorem pyFixed2_chars (q : ℚ) :
    ∀ c ∈ (pyFixed2 q).data, c.isDigit = true ∨ c = '.' ∨ c = '-' := by
  unfold pyFixed2
  intro c hc
  simp only [String.data_append, List.mem_append] at hc
  rcases hc with ((hc | hc) | hc) | hc
  · split at hc
    · rw [show ("-" : String).data = ['-'] from rfl, List.mem_singleton] at hc
      exact Or.inr (Or.inr hc)
    · simp at hc
  · exact Or.inl (natStr_digit _ c hc)
  · exact Or.inr (Or.inl (List.mem_singleton.1 hc))
  · exact Or.inl (pad2_digit _ c hc)

theorem pyFixed0_chars (q : ℚ) :
    ∀ c ∈ (pyFixed0 q).data, c.isDigit = true ∨ c = '-' := by
  unfold pyFixed0
  intro c hc
  rw [String.data_append, List.mem_append] at hc
  rcases hc with hc | hc
  · split at hc
    · rw [show ("-" : String).data = ['-'] from rfl, List.mem_singleton] at hc
      exact Or.inr hc
    · simp at hc
  · exact Or.inl (natStr_digit _ c hc)

/-! ## Structure of the alert message -/

set_option maxHeartbeats 1600000 in
/-- Every character of an alert message is a formatter character or comes
from the fragment whose guard condition holds. -/
theorem mem_alertMsg_cases (inflow old_vol : ℚ) (c : Char)
    (hc : c ∈ (alertMsg inflow old_vol).data) :
    c.isDigit = true ∨ c = '.' ∨ c = '-' ∨ c ∈ alertBaseChars ∨
    (500 < old_vol ∧ c ∈ whaleConstChars) ∨
    ((0 < old_vol ∧ ¬ 500 < old_vol) ∧ c ∈ oldCoinsConstChars) ∨
    (5 < inflow ∧ c ∈ dumpRiskLine.data) := by
  unfold alertMsg at hc
  have h2 := pyFixed2_chars inflow c
  have h0 := pyFixed0_chars old_vol c
  simp only [inflowLine, whaleLine, oldCoinsLine, alertBaseChars, whaleConstChars,
    oldCoinsConstChars, String.data_append, List.mem_append] at hc ⊢
  split_ifs at hc <;>
    simp only [String.data_append, List.mem_append, List.not_mem_nil,
      show ("" : String).data = [] from rfl] at hc <;>
    tauto

theorem whale_not_infix (inflow old_vol : ℚ) (h : ¬ 500 < old_vol) :
    ¬ (whaleLine old_vol).data <:+: (alertMsg inflow old_vol).data := by
  intro hinf
  have hW : 'W' ∈ (whaleLine old_vol).data := by
    rw [whaleLine, String.data_append, String.data_append]
    refine List.mem_append.2 (Or.inl (List.mem_append.2 (Or.inl ?_)))
    decide
  have := mem_alertMsg_cases inflow old_vol 'W' (hinf.subset hW)
  have hd : ('W').isDigit = false := by decide
  have hb : 'W' ∉ alertBaseChars := by decide
  have hdr : 'W' ∉ dumpRiskLine.data := by decide
  have hoc : 'W' ∉ oldCoinsConstChars := by decide
  tauto

theorem oldCoins_not_infix (inflow old_vol : ℚ) (h : ¬ (0 < old_vol ∧ ¬ 500 < old_vol)) :
    ¬ (oldCoinsLine old_vol).data <:+: (alertMsg inflow old_vol).data := by
  intro hinf
  have hB : '³' ∈ (oldCoinsLine old_vol).data := by
    rw [oldCoinsLine, String.data_append, String.data_append]
    refine List.mem_append.2 (Or.inl (List.mem_append.2 (Or.inl ?_)))
    decide
  have := mem_alertMsg_cases inflow old_vol '³' (hinf.subset hB)
  have hd : ('³').isDigit = false := by decide
  have hb : '³' ∉ alertBaseChars := by decide
  have hdr : '³' ∉ dumpRiskLine.data := by decide
  have hwc : '³' ∉ whaleConstChars := by decide
  tauto

theorem dump_not_infix (inflow old_vol : ℚ) (h : ¬ 5 < inflow) :
    ¬ dumpRiskLine.data <:+: (alertMsg inflow old_vol).data := by
  intro hinf
  have hS : 'š' ∈ dumpRiskLine.data := by decide
  have := mem_alertMsg_cases inflow old_vol 'š' (hinf.subset hS)
  have hd : ('š').isDigit = false := by decide
  have hb : 'š' ∉ alertBaseChars := by decide
  have hwc : 'š' ∉ whaleConstChars := by decide
  have hoc : 'š' ∉ oldCoinsConstChars := by decide
  tauto

theorem isInfix_append_left (A : List Char) {B C : List Char} (h : B <:+: C) :
    B <:+: A ++ C := by
  obtain ⟨s, t, rfl⟩ := h
  exact ⟨A ++ s, t, by simp⟩

/-- C8 (corrected).  Structure of the alert text: the header and the inflow
line are always present; the whale line appears exactly when
`old_vol > 500`, the old-coins line exactly when `0 < old_vol ≤ 500`, the
high-dump-risk marker exactly when `inflow > 5.0` — so the old-coin volume
figure is present exactly when `old_vol > 0`, not always as the claim
stated. -/
theorem alert_message_structure (inflow old_vol : ℚ) :
    alertHeader.data <+: (alertMsg inflow old_vol).data ∧
    (inflowLine inflow).data <:+: (alertMsg inflow old_vol).data ∧
    ((whaleLine old_vol).data <:+: (alertMsg inflow old_vol).data ↔ 500 < old_vol) ∧
    ((oldCoinsLine old_vol).data <:+: (alertMsg inflow old_vol).data ↔
      (0 < old_vol ∧ ¬ 500 < old_vol)) ∧
    (dumpRiskLine.data <:+: (alertMsg inflow old_vol).data ↔ 5 < inflow) ∧
    (((whaleLine old_vol).data <:+: (alertMsg inflow old_vol).data ∨
      (oldCoinsLine old_vol).data <:+: (alertMsg inflow old_vol).data) ↔
      0 < old_vol) := by
  have hmsg : (alertMsg inflow old_vol).data =
      alertHeader.data ++ (alertRule.data ++ ((inflowLine inflow).data ++
        (((if 500 < old_vol then whaleLine old_vol
           else if 0 < old_vol then oldCoinsLine old_vol else "").data) ++
         (alertRule.data ++ (if 5 < inflow then dumpRiskLine else "").data)))) := by
    simp [alertMsg, String.data_append, List.append_assoc]
  have hhd : alertHeader.data <+: (alertMsg inflow old_vol).data := by
    rw [hmsg]; exact List.prefix_append _ _
  have hinfl : (inflowLine inflow).data <:+: (alertMsg inflow old_vol).data := by
    rw [hmsg]
    exact isInfix_append_left _ (isInfix_append_left _
      (List.IsPrefix.isInfix (List.prefix_append _ _)))
  refine ⟨hhd, hinfl, ⟨?_, ?_⟩, ⟨?_, ?_⟩, ⟨?_, ?_⟩, ⟨?_, ?_⟩⟩
  · intro hin
    by_contra hno
    exact whale_not_infix inflow old_vol hno hin
  · intro hw
    rw [hmsg, if_pos hw]
    exact isInfix_append_left _ (isInfix_append_left _ (isInfix_append_left _
      (List.IsPrefix.isInfix (List.prefix_append _ _))))
  · intro hin
    by_contra hno
    exact oldCoins_not_infix inflow old_vol hno hin
  · rintro ⟨h0, h5⟩
    rw [hmsg, if_neg h5, if_pos h0]
    exact isInfix_append_left _ (isInfix_append_left _ (isInfix_append_left _
      (List.IsPrefix.isInfix (List.prefix_append _ _))))
  · intro hin
    by_contra hno
    exact dump_not_infix inflow old_vol hno hin
  · intro hd
    rw [hmsg, if_pos hd]
    exact isInfix_append_left _ (isInfix_append_left _ (isInfix_append_left _
      (isInfix_append_left _ (isInfix_append_left _
        (List.IsSuffix.isInfix (List.suffix_refl _))))))
  · rintro (hin | hin)
    · by_contra hno
      have h5 : ¬ 500 < old_vol := fun h => hno (lt_trans (by norm_num) h)
      exact whale_not_infix inflow old_vol h5 hin
    · by_contra hno
      exact oldCoins_not_infix inflow old_vol (fun h => hno h.1) hin
  · intro h0
    by_cases hw : 500 < old_vol
    · refine Or.inl ?_
      rw [hmsg, if_pos hw]
      exact isInfix_append_left _ (isInfix_append_left _ (isInfix_append_left _
        (List.IsPrefix.isInfix (List.prefix_append _ _))))
    · refine Or.inr ?_
      rw [hmsg, if_neg hw, if_pos h0]
      exact isInfix_append_left _ (isInfix_append_left _ (isInfix_append_left _
        (List.IsPrefix.isInfix (List.prefix_append _ _))))

/-- C8 counterexample.  `(inflow, old_vol) = (3, 0)` triggers an alert
(`3 > 2.0`), yet neither line carrying the old-coin volume figure occurs in
the message: the claim that every triggered alert's message contains the
old-coin volume is false. -/
theorem alert_msg_oldvol_cex :
    ((2 : ℚ) < 3 ∨ (100 : ℚ) < 0) ∧
    ¬ (whaleLine 0).data <:+: (alertMsg 3 0).data ∧
    ¬ (oldCoinsLine 0).data <:+: (alertMsg 3 0).data :=
  ⟨Or.inl (by norm_num),
   whale_not_infix 3 0 (by norm_num),
   oldCoins_not_infix 3 0 (by norm_num)⟩

/-! ## Claims about the web surface -/

/-- C9 counterexample.  The Flask app registers no `/test` route: the only
route decorator in the program is `@app.route('/')`. -/
theorem web_no_test_endpoint_cex : "/test" ∉ appRoutes := by
  decide

/-- C9 (corrected).  The web surface is a single `GET /` endpoint whose
handler returns the static status string; no test-notification endpoint
exists. -/
theorem web_surface_single_route :
    appRoutes = ["/"] ∧ "/test" ∉ appRoutes ∧
    healthBody = "Radar 10000/10 is Active and Scanning... ðŸ“¡" :=
  ⟨rfl, by decide, rfl⟩

/-! ## Shape and value of the strftime timestamp -/

theorem digitVal_digitChar : ∀ m < 10, digitVal (Nat.digitChar m) = m := by
  decide

theorem natDigits_one (n : Nat) (h : n < 10) :
    natDigits n = [Nat.digitChar n] := by
  rw [natDigits, dif_pos h]

theorem natDigits_two (n : Nat) (h1 : 10 ≤ n) (h2 : n < 100) :
    natDigits n = [Nat.digitChar (n / 10), Nat.digitChar (n % 10)] := by
  rw [natDigits, dif_neg (by omega), natDigits_one (n / 10) (by omega)]
  rfl

theorem natDigits_three (n : Nat) (h1 : 100 ≤ n) (h2 : n < 1000) :
    natDigits n =
      [Nat.digitChar (n / 100), Nat.digitChar (n / 10 % 10), Nat.digitChar (n % 10)] := by
  rw [natDigits, dif_neg (by omega), natDigits_two (n / 10) (by omega) (by omega)]
  rw [Nat.div_div_eq_div_mul]
  rfl

theorem natDigits_four (n : Nat) (h1 : 1000 ≤ n) (h2 : n < 10000) :
    natDigits n =
      [Nat.digitChar (n / 1000), Nat.digitChar (n / 100 % 10),
       Nat.digitChar (n / 10 % 10), Nat.digitChar (n % 10)] := by
  rw [natDigits, dif_neg (by omega), natDigits_three (n / 10) (by omega) (by omega)]
  rw [Nat.div_div_eq_div_mul, Nat.div_div_eq_div_mul]
  rfl

theorem pad2_data (n : Nat) (h : n < 100) :
    (pad2 n).data = [Nat.digitChar (n / 10), Nat.digitChar (n % 10)] := by
  unfold pad2
  split
  · rw [natStr, String.data_append]
    rw [natDigits_one n (by omega)]
    have h10 : n / 10 = 0 := by omega
    have hmod : n % 10 = n := by omega
    rw [h10, hmod]
    rfl
  · rw [natStr]
    rw [show (⟨natDigits n⟩ : String).data = natDigits n from rfl]
    exact natDigits_two n (by omega) h

theorem pad4_data (n : Nat) (h : n < 10000) :
    (pad4 n).data =
      [Nat.digitChar (n / 1000), Nat.digitChar (n / 100 % 10),
       Nat.digitChar (n / 10 % 10), Nat.digitChar (n % 10)] := by
  unfold pad4
  split
  · rw [String.data_append, natStr,
      show (⟨natDigits n⟩ : String).data = natDigits n from rfl,
      natDigits_one n (by omega)]
    have e1 : n / 1000 = 0 := by omega
    have e2 : n / 100 % 10 = 0 := by omega
    have e3 : n / 10 % 10 = 0 := by omega
    have e4 : n % 10 = n := by omega
    rw [e1, e2, e3, e4]
    rfl
  · split
    · rw [String.data_append, natStr,
        show (⟨natDigits n⟩ : String).data = natDigits n from rfl,
        natDigits_two n (by omega) (by omega)]
      have e1 : n / 1000 = 0 := by omega
      have e2 : n / 100 % 10 = 0 := by omega
      have e3 : n / 10 % 10 = n / 10 := by omega
      rw [e1, e2, e3]
      rfl
    · split
      · rw [String.data_append, natStr,
          show (⟨natDigits n⟩ : String).data = natDigits n from rfl,
          natDigits_three n (by omega) (by omega)]
        have e1 : n / 1000 = 0 := by omega
        have e2 : n / 100 % 10 = n / 100 := by omega
        rw [e1, e2]
        rfl
      · rw [natStr,
          show (⟨natDigits n⟩ : String).data = natDigits n from rfl]
        exact natDigits_four n (by omega) h

theorem civil_month_bounds (z : Nat) :
    1 ≤ (civilFromDays z).2.1 ∧ (civilFromDays z).2.1 ≤ 12 := by
  simp only [civilFromDays]
  split <;> omega

theorem civil_day_bounds (z : Nat) :
    1 ≤ (civilFromDays z).2.2 ∧ (civilFromDays z).2.2 ≤ 31 := by
  simp only [civilFromDays]
  omega

theorem civil_year_le (z : Nat) (h : z ≤ 2932896) :
    (civilFromDays z).1 ≤ 9999 := by
  simp only [civilFromDays]
  split <;> split <;> omega

theorem timeStr_data (t : Nat) (h : t ≤ 253402300799) :
    (timeStr t).data =
      [Nat.digitChar ((civilFromDays (t / 86400)).1 / 1000),
       Nat.digitChar ((civilFromDays (t / 86400)).1 / 100 % 10),
       Nat.digitChar ((civilFromDays (t / 86400)).1 / 10 % 10),
       Nat.digitChar ((civilFromDays (t / 86400)).1 % 10), '-',
       Nat.digitChar ((civilFromDays (t / 86400)).2.1 / 10),
       Nat.digitChar ((civilFromDays (t / 86400)).2.1 % 10), '-',
       Nat.digitChar ((civilFromDays (t / 86400)).2.2 / 10),
       Nat.digitChar ((civilFromDays (t / 86400)).2.2 % 10), 'T',
       Nat.digitChar (t % 86400 / 3600 / 10),
       Nat.digitChar (t % 86400 / 3600 % 10), ':',
       Nat.digitChar (t % 86400 % 3600 / 60 / 10),
       Nat.digitChar (t % 86400 % 3600 / 60 % 10), ':',
       Nat.digitChar (t % 86400 % 60 / 10),
       Nat.digitChar (t % 86400 % 60 % 10), 'Z'] := by
  have hy : (civilFromDays (t / 86400)).1 ≤ 9999 := civil_year_le _ (by omega)
  have hm := civil_month_bounds (t / 86400)
  have hd := civil_day_bounds (t / 86400)
  rw [timeStr]
  repeat rw [String.data_append]
  rw [pad4_data _ (by omega), pad2_data _ (by omega), pad2_data _ (by omega),
    pad2_data _ (by omega), pad2_data _ (by omega), pad2_data _ (by omega)]
  rfl

theorem parse_timeStr (t : Nat) (h : t ≤ 253402300799) :
    parseTimestamp (timeStr t) =
      some ((civilFromDays (t / 86400)).1, (civilFromDays (t / 86400)).2.1,
            (civilFromDays (t / 86400)).2.2, t % 86400 / 3600,
            t % 86400 % 3600 / 60, t % 86400 % 60) ∧
    (timeStr t).data.length = 20 := by
  have hy : (civilFromDays (t / 86400)).1 ≤ 9999 := civil_year_le _ (by omega)
  have hm := civil_month_bounds (t / 86400)
  have hd := civil_day_bounds (t / 86400)
  have hdata := timeStr_data t h
  have b1 : (civilFromDays (t / 86400)).1 / 1000 < 10 := by omega
  have b2 : (civilFromDays (t / 86400)).1 / 100 % 10 < 10 := by omega
  have b3 : (civilFromDays (t / 86400)).1 / 10 % 10 < 10 := by omega
  have b4 : (civilFromDays (t / 86400)).1 % 10 < 10 := by omega
  have b5 : (civilFromDays (t / 86400)).2.1 / 10 < 10 := by omega
  have b6 : (civilFromDays (t / 86400)).2.1 % 10 < 10 := by omega
  have b7 : (civilFromDays (t / 86400)).2.2 / 10 < 10 := by omega
  have b8 : (civilFromDays (t / 86400)).2.2 % 10 < 10 := by omega
  have b9 : t % 86400 / 3600 / 10 < 10 := by omega
  have b10 : t % 86400 / 3600 % 10 < 10 := by omega
  have b11 : t % 86400 % 3600 / 60 / 10 < 10 := by omega
  have b12 : t % 86400 % 3600 / 60 % 10 < 10 := by omega
  have b13 : t % 86400 % 60 / 10 < 10 := by omega
  have b14 : t % 86400 % 60 % 10 < 10 := by omega
  constructor
  · rw [parseTimestamp, hdata]
    simp only [digitChar_isDigit _ b1, digitChar_isDigit _ b2, digitChar_isDigit _ b3,
      digitChar_isDigit _ b4, digitChar_isDigit _ b5, digitChar_isDigit _ b6,
      digitChar_isDigit _ b7, digitChar_isDigit _ b8, digitChar_isDigit _ b9,
      digitChar_isDigit _ b10, digitChar_isDigit _ b11, digitChar_isDigit _ b12,
      digitChar_isDigit _ b13, digitChar_isDigit _ b14, Bool.and_self, if_pos,
      digitVal_digitChar _ b1, digitVal_digitChar _ b2, digitVal_digitChar _ b3,
      digitVal_digitChar _ b4, digitVal_digitChar _ b5, digitVal_digitChar _ b6,
      digitVal_digitChar _ b7, digitVal_digitChar _ b8, digitVal_digitChar _ b9,
      digitVal_digitChar _ b10, digitVal_digitChar _ b11, digitVal_digitChar _ b12,
      digitVal_digitChar _ b13, digitVal_digitChar _ b14,
      Option.some.injEq, Prod.mk.injEq]
    refine ⟨by omega, by omega, by omega, by omega, by omega, by omega⟩
  · rw [hdata]
    rfl

/-! Anchor checks of the `strftime` model against concrete instants
(leap day, century non-leap boundary, far range). -/

example : timeStr 0 = "1970-01-01T00:00:00Z" := by
  simp [timeStr, civilFromDays, pad4, pad2, natStr, natDigits, Nat.digitChar]

example : timeStr 951782400 = "2000-02-29T00:00:00Z" := by
  simp [timeStr, civilFromDays, pad4, pad2, natStr, natDigits, Nat.digitChar]

example : timeStr 1760227200 = "2025-10-12T00:00:00Z" := by
  simp [timeStr, civilFromDays, pad4, pad2, natStr, natDigits, Nat.digitChar]

example : timeStr 4102444799 = "2099-12-31T23:59:59Z" := by
  simp [timeStr, civilFromDays, pad4, pad2, natStr, natDigits, Nat.digitChar]

example : timeStr 253402300799 = "9999-12-31T23:59:59Z" := by
  simp [timeStr, civilFromDays, pad4, pad2, natStr, natDigits, Nat.digitChar]

/-- C7.  `_get_dynamic_query` is the fixed template with the window-start
timestamp (`now` minus `INTERVAL_MINUTES`) spliced in twice; two builds with
the same window start are byte-identical; and the embedded timestamp is
exactly 20 characters of shape `YYYY-MM-DDTHH:MM:SSZ` (second precision, no
fractional seconds) that parse back to the civil date and time of day of the
window start. -/
theorem query_builder_spec (now : Nat) (h1 : 600 ≤ now)
    (h2 : now ≤ 253402301399) :
    getDynamicQuery now =
      queryPart0 ++ timeStr (now - 600) ++ queryPart1 ++ timeStr (now - 600) ++
        queryPart2 ∧
    (∀ now2, now2 - 600 = now - 600 → getDynamicQuery now2 = getDynamicQuery now) ∧
    parseTimestamp (timeStr (now - 600)) =
      some ((civilFromDays ((now - 600) / 86400)).1,
            (civilFromDays ((now - 600) / 86400)).2.1,
            (civilFromDays ((now - 600) / 86400)).2.2,
            (now - 600) % 86400 / 3600,
            (now - 600) % 86400 % 3600 / 60,
            (now - 600) % 86400 % 60) ∧
    (timeStr (now - 600)).data.length = 20 := by
  have hparse := parse_timeStr (now - 600) (by omega)
  refine ⟨rfl, ?_, hparse.1, hparse.2⟩
  intro now2 he
  simp only [getDynamicQuery, INTERVAL_MINUTES]
  rw [show now2 - 10 * 60 = now - 10 * 60 from he]

/-- C7 witness: at `now = 600` the window start is the epoch and the embedded
timestamp is `1970-01-01T00:00:00Z`. -/
theorem query_builder_spec_witness :
    getDynamicQuery 600 =
      queryPart0 ++ timeStr 0 ++ queryPart1 ++ timeStr 0 ++ queryPart2 ∧
    parseTimestamp (timeStr 0) = some (1970, 1, 1, 0, 0, 0) := by
  have h := query_builder_spec 600 (by decide) (by decide)
  exact ⟨h.1, h.2.2.1.trans (by decide)⟩

end CryptoRadar
